import Mathlib

/-
  Verification development for the box-view node client (src/index.js).

  The embedding models the response-classification and retry logic of
  createResponseHandler (src/index.js lines 131-192), the callback wrappers
  (lines 199-220), the per-endpoint handler configurations (lines 241-687),
  the upload stream duplication step (lines 457-476) and the filename
  inference helper determineFilename (lines 71-91).

  Modelling conventions:
  - JavaScript strings are Lean String values; machine integers do not occur.
  - The JSON.parse function of the runtime is an external collaborator and is
    a parameter (parse : String -> Option JVal); parse s = some v models a
    successful parse, none models a thrown SyntaxError.
  - Response bodies are byte strings. Reading a body through concat-stream
    yields the empty array [] for a stream that produced no bytes (a truthy
    object) and a Buffer of the bytes otherwise; Body.emptyArr and Body.raw
    model the two results. A second pipe of an already-consumed response
    cannot deliver the bytes again, so that corner is recorded by the
    explicit outcome Outcome.repipeConsumed without committing to a payload.
  - Header values are Option String; none models an absent header and the
    JavaScript truthiness of a header value is captured by jsTruthyStr.
-/

namespace BoxView

/-- JavaScript values produced by JSON.parse, as far as the client consumes
them. -/
inductive JVal where
  | nullv
  | boolv (b : Bool)
  | numv (n : Int)
  | strv (s : String)
  | arrv (elems : List JVal)
  | objv (fields : List (String × JVal))

/-- JavaScript truthiness of a parsed JSON value: null, false, 0 and the
empty string are falsy; arrays and objects are always truthy. -/
def JVal.truthy : JVal → Bool
  | JVal.nullv => false
  | JVal.boolv b => b
  | JVal.numv n => n != 0
  | JVal.strv s => s != ""
  | JVal.arrv _ => true
  | JVal.objv _ => true

/-- A body value as the handler sees it after a read: the parsed JSON
value, the raw bytes of an unparsable nonempty body (a Buffer, which
JSON.parse coerces to its text), or the empty array [] that concat-stream
hands back for a stream that produced no bytes (JSON.parse coerces it to
the empty string and throws, so parseJSONBody returns the [] itself). -/
inductive Body where
  | json (v : JVal)
  | raw (s : String)
  | emptyArr

/-- parseJSONBody (src/index.js lines 44-50): try JSON.parse, fall back to
the raw body on a parse error. -/
def parseJSONBody (parse : String → Option JVal) (s : String) : Body :=
  match parse s with
  | some v => Body.json v
  | none => Body.raw s

/-- JavaScript truthiness of a body value: the empty array is an object
and hence truthy. -/
def Body.truthy : Body → Bool
  | Body.json v => v.truthy
  | Body.raw s => s != ""
  | Body.emptyArr => true

/-- parseJSONBody applied to what concat-stream delivers for a response
body. A stream that produced no bytes comes back as the empty array []
(JSON.parse coerces it to the empty string and throws, so the truthy []
itself is returned). A nonempty body arrives as a Buffer of the bytes,
which JSON.parse coerces to the text: the parsed value on success, the
raw bytes on failure. -/
def parseConcatBody (parse : String → Option JVal) (rawBody : String) : Body :=
  if rawBody = "" then Body.emptyArr
  else parseJSONBody parse rawBody

/-- JavaScript truthiness of the possibly-undefined body variable inside
handleResponse: undefined is falsy, otherwise the value decides. -/
def bodyTruthy : Option Body → Bool
  | none => false
  | some b => b.truthy

/-- JavaScript truthiness of a possibly-absent string (an omitted header or
property is undefined and falsy; an empty string is falsy too). -/
def jsTruthyStr : Option String → Bool
  | none => false
  | some s => s != ""

/-- An HTTP response as the handler consumes it: the status code, the
retry-after header value if the server sent one, and the bytes of the body
(delivered when the response is piped through concat-stream). -/
structure Response where
  statusCode : Nat
  retryAfter : Option String
  rawBody : String
deriving DecidableEq

/-- JavaScript parseInt with radix 10: skip leading whitespace, read an
optional sign and then the longest prefix of decimal digits; none models
NaN (no digits found). -/
def jsParseInt (s : String) : Option Int :=
  let cs := s.toList.dropWhile (fun c => c.isWhitespace)
  let signed : Bool × List Char :=
    match cs with
    | '-' :: rest => (true, rest)
    | '+' :: rest => (false, rest)
    | _ => (false, cs)
  let digits := signed.snd.takeWhile (fun c => c.isDigit)
  if digits.isEmpty then none
  else
    let n : Nat := digits.foldl (fun acc c => acc * 10 + (c.toNat - 48)) 0
    some (if signed.fst then -(n : Int) else (n : Int))

/-- statusText (src/index.js lines 35-37): the Node STATUS_CODES table for
the codes this development evaluates, with the same unknown fallback. -/
def statusText (statusCode : Nat) : String :=
  if statusCode = 200 then ("OK")
  else if statusCode = 201 then ("Created")
  else if statusCode = 202 then ("Accepted")
  else if statusCode = 204 then ("No Content")
  else if statusCode = 400 then ("Bad Request")
  else if statusCode = 404 then ("Not Found")
  else if statusCode = 429 then ("Too Many Requests")
  else if statusCode = 500 then ("Internal Server Error")
  else ("unknown")

/-- Payload stored in the error field of a created error object: a
transport-level error value, a parsed-or-raw response body, or the status
text fallback chosen when the parsed body is falsy. -/
inductive ErrPayload where
  | transport (e : String)
  | body (b : Body)
  | statusFallback (s : String)

/-- createErrorObject (src/index.js lines 58-64): the error value, the
status of the response when one exists (0 otherwise), and the response
reference. -/
structure ErrorObject where
  error : ErrPayload
  status : Nat
  response : Option Response

def createErrorObject (e : ErrPayload) (response : Option Response) : ErrorObject :=
  { error := e
    status := match response with
      | some r => r.statusCode
      | none => 0
    response := response }

/-- The retry helper (src/index.js lines 143-151). It fires exactly when a
retry function was supplied and the retry-after header value is truthy; the
result carries the setTimeout delay in milliseconds. A delay of none models
the NaN produced when the header value has no leading digits. -/
def retrySchedule (retryEnabled : Bool) (response : Response) : Option (Option Int) :=
  match response.retryAfter with
  | some s =>
      if retryEnabled && s != "" then some ((jsParseInt s).map (fun n => n * 1000))
      else none
  | none => none

/-- What a single call of handleResponse does with a fully classified
response: invoke the callback with a success, invoke it with an error
object, schedule a retry (and invoke nothing), or - in the buffered
falsy-body corner - pipe the already-consumed response a second time
(line 175). Whether concat then fires with the empty [] or never fires
depends on the stream implementation, not on this code, so the
repipeConsumed outcome commits to no delivery. -/
inductive Outcome where
  | success (r : Response) (body : Option Body)
  | failure (e : ErrorObject)
  | retryScheduled (delayMs : Option Int)
  | repipeConsumed

/-- The error value computed at line 176 by a first read of the response
in the error branch: parseJSONBody of the concat result, with the status
text fallback exactly when that value is falsy - that is, when a nonempty
body parses to a falsy JSON value. An empty body arrives as the truthy
empty-array object and is delivered as it stands, never as the status
text. -/
def freshReadErrorPayload (parse : String → Option JVal) (response : Response) : ErrPayload :=
  if (parseConcatBody parse response.rawBody).truthy then
    ErrPayload.body (parseConcatBody parse response.rawBody)
  else ErrPayload.statusFallback (statusText response.statusCode)

/-- The tail of the error branch of handleResponse (src/index.js lines
174-181). A truthy body value is wrapped as the error as it stands (line
180). A falsy undefined body (a callback of arity two or zero) triggers
the first read of the live stream at line 175 and the line 176 payload.
A buffered body value that is falsy (the body text parsed to null, 0,
false or the empty string - the empty body itself arrives as the truthy
empty-array object and never lands here) means the stream was already
consumed by the first read, so piping it again at line 175 cannot deliver
the bytes: the model records the re-pipe and commits to no payload. -/
def errorOutcome (parse : String → Option JVal) (response : Response)
    (body : Option Body) : Outcome :=
  if bodyTruthy body then
    Outcome.failure
      (createErrorObject (ErrPayload.body (body.getD Body.emptyArr)) (some response))
  else
    match body with
    | some _ => Outcome.repipeConsumed
    | none =>
        Outcome.failure
          (createErrorObject (freshReadErrorPayload parse response) (some response))

/-- handleResponse (src/index.js lines 153-183) after the body variable has
settled: classify the response given the ok status list, whether a retry
function was supplied, and the current body value (none models the
undefined body of a handler whose callback does not take a body). -/
def handleResponseWithBody (parse : String → Option JVal) (ok : List Nat)
    (retryEnabled : Bool) (response : Response) (body : Option Body) : Outcome :=
  if response.statusCode ∈ ok then
    match retrySchedule retryEnabled response with
    | some d => Outcome.retryScheduled d
    | none => Outcome.success response body
  else if response.statusCode = 429 then
    match retrySchedule retryEnabled response with
    | some d => Outcome.retryScheduled d
    | none => errorOutcome parse response body
  else errorOutcome parse response body

/-- handleResponse entry (src/index.js lines 153-162): a callback of arity
three (built by createBufferedCallback) first pipes the response through
concat-stream and applies parseJSONBody to the result; a callback of
arity two (built by createCallback) leaves the body undefined so the live
response is never read here. -/
def handleResponse (parse : String → Option JVal) (ok : List Nat)
    (retryEnabled : Bool) (buffered : Bool) (response : Response) : Outcome :=
  if buffered then
    handleResponseWithBody parse ok retryEnabled response
      (some (parseConcatBody parse response.rawBody))
  else
    handleResponseWithBody parse ok retryEnabled response none

/-- What the transport hands to the function returned by
createResponseHandler (src/index.js lines 185-192): either a transport
error raised before any response, or a response. -/
inductive HandlerInput where
  | transportError (e : String)
  | gotResponse (r : Response)
deriving DecidableEq

/-- The handler returned by createResponseHandler (src/index.js lines
185-192): a transport error is wrapped immediately (no response reference,
status 0); otherwise handleResponse classifies the response. -/
def responseHandler (parse : String → Option JVal) (ok : List Nat)
    (retryEnabled : Bool) (buffered : Bool) : HandlerInput → Outcome
  | HandlerInput.transportError e =>
      Outcome.failure (createErrorObject (ErrPayload.transport e) none)
  | HandlerInput.gotResponse r => handleResponse parse ok retryEnabled buffered r

/-- The per-call configuration every endpoint bakes into
createResponseHandler: the ok status list, whether the caller opted into
retrying, and whether the callback expects a buffered body. -/
structure Operation where
  ok : List Nat
  retryEnabled : Bool
  buffered : Bool
deriving DecidableEq

/-- The request a retry closure re-submits: every endpoint captures its
original arguments, so each physical attempt issues the same descriptor. -/
structure RequestDescriptor where
  method : String
  url : String
  content : Option String
deriving DecidableEq

/-- A recorded invocation of the completion callback of one logical
operation. -/
inductive CallbackCall where
  | success (r : Response) (body : Option Body)
  | failure (e : ErrorObject)

/-- One logical operation run against a script of transport results, one
per physical request. The first element answers the request issued by the
original call; when the classifier schedules a retry the captured closure
re-invokes the same operation with the same arguments (src/index.js lines
268-270 and analogues), consuming the next script element. Returns the
physical requests issued and the callback invocations, in order. -/
def runOperation (parse : String → Option JVal) (op : Operation)
    (rd : RequestDescriptor) :
    List HandlerInput → List RequestDescriptor × List CallbackCall
  | [] => ([], [])
  | i :: rest =>
      match responseHandler parse op.ok op.retryEnabled op.buffered i with
      | Outcome.retryScheduled _ =>
          let tail := runOperation parse op rd rest
          (rd :: tail.fst, tail.snd)
      | Outcome.success r b => ([rd], [CallbackCall.success r b])
      | Outcome.failure e => ([rd], [CallbackCall.failure e])
      | Outcome.repipeConsumed => ([rd], [])

/-- documents.list handler configuration (src/index.js lines 285-288):
createResponseHandler(callback, retry) leaves okStatusCodes at the default
of a single 200 (lines 131-136); the callback is buffered. The same shape
serves documents.get and documents.update. -/
def listOperation (retryEnabled : Bool) : Operation :=
  { ok := [200], retryEnabled := retryEnabled, buffered := true }

/-- documents.delete handler configuration (src/index.js lines 400-403):
ok status 204, non-buffered callback. -/
def deleteOperation (retryEnabled : Bool) : Operation :=
  { ok := [204], retryEnabled := retryEnabled, buffered := false }

/-- documents.uploadFile and documents.uploadURL handler configuration
(src/index.js lines 478-479 and 542-543): ok statuses 200 and 202,
buffered callback. -/
def uploadOperation (retryEnabled : Bool) : Operation :=
  { ok := [200, 202], retryEnabled := retryEnabled, buffered := true }

/-- documents.getContent and documents.getThumbnail handler configuration
(src/index.js lines 584-585 and 625-626): ok statuses 200 and 202, and a
createCallback wrapper of arity two, so the body is never buffered. -/
def getContentOperation (retryEnabled : Bool) : Operation :=
  { ok := [200, 202], retryEnabled := retryEnabled, buffered := false }

/-- sessions.create handler configuration (src/index.js lines 680-681):
ok statuses 201 and 202, buffered callback. -/
def sessionCreateOperation (retryEnabled : Bool) : Operation :=
  { ok := [201, 202], retryEnabled := retryEnabled, buffered := true }

/-- A node readable stream as uploadFile and determineFilename consume it:
whether it is currently readable, the bytes it will produce, and the
properties the client consults. httpVersion of some models an own
httpVersion property (an http response source); headers is its header map;
clientPath models the request url path reachable as
client underscore httpMessage dot path (none when no client object is
attached); path models the path property of a file stream. -/
structure JStream where
  readable : Bool
  content : List Nat
  httpVersion : Option String
  headers : List (String × String)
  clientPath : Option String
  path : Option String
deriving DecidableEq

/-- Case-exact lookup in a header map, as JavaScript property access on the
node headers object (node lowercases header names on receipt). -/
def jsLookup (headers : List (String × String)) (key : String) : Option String :=
  (headers.find? (fun kv => kv.fst = key)).map (fun kv => kv.snd)

/-- node path.basename for posix paths: drop trailing slashes, then take
the part after the last remaining slash. -/
def basename (p : String) : String :=
  let dropped := p.toList.reverse.dropWhile (fun c => c = '/')
  String.mk ((dropped.takeWhile (fun c => c != '/')).reverse)

/-- Whether the pattern is a character-for-character front of the text. -/
def startsWithChars : List Char → List Char → Bool
  | [], _ => true
  | _ :: _, [] => false
  | p :: ps, c :: cs => p = c && startsWithChars ps cs

/-- Everything after the first occurrence of the pattern in the text, or
none when the pattern does not occur. -/
def captureAfter (pat : List Char) : List Char → Option (List Char)
  | [] => none
  | c :: rest =>
      if startsWithChars pat (c :: rest) then some (List.drop pat.length (c :: rest))
      else captureAfter pat rest

/-- The capture group of the regular expression that scans a
content-disposition header for a filename: the greedy dot-star group takes
everything after the first occurrence of the pattern up to the end of the
header value (header values contain no newline). When the pattern does not
occur the JavaScript code dereferences a null match object and throws; the
none answer here only matters on inputs where the source crashes. -/
def filenameCapture (s : String) : Option String :=
  (captureAfter (("filename=").toList) s.toList).map String.mk

/-- determineFilename (src/index.js lines 71-91): for an http response
source, read the filename from the content-disposition header and fall
back to the basename of the request url path when the header is absent or
the capture is falsy; for a file source take the basename of the path
property; otherwise use the untitled fallback. -/
def determineFilename (file : JStream) : String :=
  let fromHeader : Option String :=
    if file.httpVersion.isSome then
      match jsLookup file.headers ("content-disposition") with
      | some cd => if cd = "" then none else filenameCapture cd
      | none => none
    else none
  let filename : Option String :=
    if file.httpVersion.isSome then
      if jsTruthyStr fromHeader then fromHeader
      else some (basename (file.clientPath.getD ""))
    else if jsTruthyStr file.path then some (basename (file.path.getD ""))
    else none
  match filename with
  | some s => if s = "" then ("untitled document") else s
  | none => ("untitled document")

/-- A fresh PassThrough stream that the source is piped into: readable, it
reproduces every byte of the source, and it starts with none of the
identifying properties. -/
def passThroughPipedFrom (source : JStream) : JStream :=
  { readable := true
    content := source.content
    httpVersion := none
    headers := []
    clientPath := none
    path := none }

/-- The property copying step of uploadFile (src/index.js lines 466-475):
an http response source passes httpVersion, headers and client to the new
stream; otherwise a truthy path property is passed along. -/
def copyStreamProps (source target : JStream) : JStream :=
  if source.httpVersion.isSome then
    { target with
        httpVersion := source.httpVersion
        headers := source.headers
        clientPath := source.clientPath }
  else if jsTruthyStr source.path then
    { target with path := source.path }
  else target

/-- The stream duplication step of uploadFile (src/index.js lines 457-476):
when retry is requested and the file is readable, the source is piped into
two fresh PassThrough streams - one consumed by the in-flight request, one
cached in the captured argument list for the retried attempt - and the
identifying properties are copied onto both. In every other case the file
is used as given and nothing is cached. The source contains no synchronous
rejection path, so no Except.error is ever produced; the Except typing
records where such a rejection would surface. -/
def uploadFilePrepare (retryEnabled : Bool) (file : JStream) :
    Except String (JStream × Option JStream) :=
  if retryEnabled && file.readable then
    Except.ok
      (copyStreamProps file (passThroughPipedFrom file),
       some (copyStreamProps file (passThroughPipedFrom file)))
  else
    Except.ok (file, none)

/-- Bool discriminator: is this outcome a scheduled retry. -/
def Outcome.isRetryScheduled : Outcome → Bool
  | Outcome.retryScheduled _ => true
  | _ => false

/-- Bool discriminator: is this outcome an invocation of the callback with
a success value. -/
def Outcome.isSuccess : Outcome → Bool
  | Outcome.success _ _ => true
  | _ => false

/-- Bool discriminator: is this outcome an invocation of the callback with
an error object. -/
def Outcome.isFailure : Outcome → Bool
  | Outcome.failure _ => true
  | _ => false

/-- Bool discriminator on error payloads: is this the status text fallback. -/
def ErrPayload.isStatusFallback : ErrPayload → Bool
  | ErrPayload.statusFallback _ => true
  | _ => false

/-- Bool discriminator on error payloads: is this a parsed-or-raw body. -/
def ErrPayload.isBodyPayload : ErrPayload → Bool
  | ErrPayload.body _ => true
  | _ => false

/-- A concrete stand-in for JSON.parse used by closed witness statements:
it recognises the handful of body strings the witnesses use and fails on
everything else, exactly as JSON.parse succeeds on valid JSON text and
throws otherwise. -/
def demoParse : String → Option JVal := fun s =>
  if s = "[]" then some (JVal.arrv [])
  else if s = "null" then some JVal.nullv
  else if s = "12" then some (JVal.numv 12)
  else none

/-- A concrete request descriptor for closed witness statements. -/
def demoRequest : RequestDescriptor :=
  { method := "GET"
    url := "https://view-api.box.com/1/documents/abc/content.pdf"
    content := none }

/-- A 202 accepted response with a retry-after header, as the upload and
session endpoints return while a conversion is pending. -/
def pendingResponse : Response :=
  { statusCode := 202, retryAfter := some "5", rawBody := "" }

/-- A 202 accepted response asking for an immediate retry. -/
def pendingZeroResponse : Response :=
  { statusCode := 202, retryAfter := some "0", rawBody := "" }

/-- A plain 200 success carrying a JSON array body and no retry-after. -/
def successResponse : Response :=
  { statusCode := 200, retryAfter := none, rawBody := "[]" }

/-- A 404 error response whose body is the JSON text null. -/
def notFoundNullResponse : Response :=
  { statusCode := 404, retryAfter := none, rawBody := "null" }

/-- A 202 response whose retry-after header is present but empty. -/
def emptyHeaderResponse : Response :=
  { statusCode := 202, retryAfter := some "", rawBody := "" }

/-- A 429 response with a retry-after header of three seconds. -/
def throttledResponse : Response :=
  { statusCode := 429, retryAfter := some "3", rawBody := "" }

/-- A 404 error response with an empty body. -/
def notFoundEmptyResponse : Response :=
  { statusCode := 404, retryAfter := none, rawBody := "" }

/-- A 200 success whose body is not valid JSON. -/
def unparsableResponse : Response :=
  { statusCode := 200, retryAfter := none, rawBody := "not json" }

/-- A 200 success carrying binary bytes, as content and thumbnail
retrieval receive. -/
def binaryResponse : Response :=
  { statusCode := 200, retryAfter := none, rawBody := "PNGDATA" }

/-- A 200 success that nevertheless carries a retry-after header. -/
def successRetryAfter200 : Response :=
  { statusCode := 200, retryAfter := some "3", rawBody := "[]" }

/-- A 201 created response that nevertheless carries a retry-after
header. -/
def createdRetryAfter201 : Response :=
  { statusCode := 201, retryAfter := some "3", rawBody := "" }

/-- A 204 no content response that nevertheless carries a retry-after
header. -/
def deletedRetryAfter204 : Response :=
  { statusCode := 204, retryAfter := some "3", rawBody := "" }

/-- An upload source that is an http response stream with a
content-disposition filename. -/
def demoHttpUpload : JStream :=
  { readable := true
    content := [37, 80, 68, 70]
    httpVersion := some "1.1"
    headers := [("content-disposition", "attachment; filename=foo.pdf")]
    clientPath := some "/files/bar.pdf"
    path := none }

/-- The PassThrough duplicate that uploadFile builds from demoHttpUpload:
full content, readable, and the identifying http properties copied. -/
def demoDuplicate : JStream :=
  { readable := true
    content := [37, 80, 68, 70]
    httpVersion := some "1.1"
    headers := [("content-disposition", "attachment; filename=foo.pdf")]
    clientPath := some "/files/bar.pdf"
    path := none }

/-- An upload body with no readable source at all, as a Buffer argument. -/
def bufferUpload : JStream :=
  { readable := false
    content := [37, 80, 68, 70]
    httpVersion := none
    headers := []
    clientPath := none
    path := none }

/-! ## Helper lemmas -/

/-- With retries disabled no branch of the retry helper ever fires. -/
theorem retrySchedule_disabled (r : Response) : retrySchedule false r = none := by
  unfold retrySchedule
  cases r.retryAfter <;> simp

/-- A response without a retry-after header never schedules a retry. -/
theorem retrySchedule_noHeader (retryEnabled : Bool) (r : Response)
    (h : r.retryAfter = none) : retrySchedule retryEnabled r = none := by
  unfold retrySchedule
  rw [h]

/-- With retries enabled and a nonempty retry-after value, the retry
helper schedules parseInt times one thousand milliseconds. -/
theorem retrySchedule_enabled (r : Response) (s : String)
    (hra : r.retryAfter = some s) (hs : s ≠ "") :
    retrySchedule true r = some ((jsParseInt s).map (fun n => n * 1000)) := by
  unfold retrySchedule
  rw [hra]
  simp [hs]

/-- Success branch of handleResponse when no retry fires: the callback
receives the response, with the concat-read parsed body exactly when the
callback is a buffered one. -/
theorem handleResponse_ok (parse : String → Option JVal) (ok : List Nat)
    (retryEnabled buffered : Bool) (r : Response)
    (hok : r.statusCode ∈ ok) (hnr : retrySchedule retryEnabled r = none) :
    handleResponse parse ok retryEnabled buffered r
      = Outcome.success r (if buffered then some (parseConcatBody parse r.rawBody) else none) := by
  unfold handleResponse handleResponseWithBody
  cases buffered <;> simp [hok, hnr]

/-- Success branch of handleResponse when a retry fires: only the timer is
set. -/
theorem handleResponse_ok_retry (parse : String → Option JVal) (ok : List Nat)
    (retryEnabled buffered : Bool) (r : Response) (d : Option Int)
    (hok : r.statusCode ∈ ok) (hr : retrySchedule retryEnabled r = some d) :
    handleResponse parse ok retryEnabled buffered r = Outcome.retryScheduled d := by
  unfold handleResponse handleResponseWithBody
  cases buffered <;> simp [hok, hr]

/-- The error branch delivers one canonical error object whenever the
body variable is deliverable: undefined (a first read of the live stream
follows) or a truthy concat value (delivered as it stands, the line 176
payload coinciding with it). -/
theorem errorOutcome_deliverable (parse : String → Option JVal) (r : Response)
    (body : Option Body)
    (hb : body = none ∨
      (body = some (parseConcatBody parse r.rawBody) ∧
        (parseConcatBody parse r.rawBody).truthy = true)) :
    errorOutcome parse r body
      = Outcome.failure
          { error := freshReadErrorPayload parse r
            status := r.statusCode
            response := some r } := by
  rcases hb with h | ⟨h, ht⟩ <;> subst h
  · simp [errorOutcome, bodyTruthy, createErrorObject]
  · simp [errorOutcome, bodyTruthy, ht, freshReadErrorPayload, createErrorObject]

/-- The error branch with a buffered body value that is falsy re-pipes the
consumed response and delivers nothing definite. -/
theorem errorOutcome_repipe (parse : String → Option JVal) (r : Response)
    (hfalsy : (parseConcatBody parse r.rawBody).truthy = false) :
    errorOutcome parse r (some (parseConcatBody parse r.rawBody))
      = Outcome.repipeConsumed := by
  simp [errorOutcome, bodyTruthy, hfalsy]

/-- Error branch of handleResponse: any status outside the ok list that
does not take the 429 retry exit and whose body value is deliverable (the
callback is non-buffered, or the concat value is truthy - empty bodies
included) yields the canonical error object. -/
theorem handleResponse_error (parse : String → Option JVal) (ok : List Nat)
    (retryEnabled buffered : Bool) (r : Response)
    (hok : r.statusCode ∉ ok)
    (h429 : r.statusCode = 429 → retrySchedule retryEnabled r = none)
    (hdeliv : buffered = true → (parseConcatBody parse r.rawBody).truthy = true) :
    handleResponse parse ok retryEnabled buffered r
      = Outcome.failure
          { error := freshReadErrorPayload parse r
            status := r.statusCode
            response := some r } := by
  have hcase : ∀ body : Option Body,
      (body = none ∨
        (body = some (parseConcatBody parse r.rawBody) ∧
          (parseConcatBody parse r.rawBody).truthy = true)) →
      handleResponseWithBody parse ok retryEnabled r body
        = Outcome.failure
            { error := freshReadErrorPayload parse r
              status := r.statusCode
              response := some r } := by
    intro body hb
    unfold handleResponseWithBody
    by_cases h : r.statusCode = 429
    · have hok2 : (429 : Nat) ∉ ok := h ▸ hok
      simp [hok, hok2, h, h429 h, errorOutcome_deliverable parse r body hb]
    · simp [hok, h, errorOutcome_deliverable parse r body hb]
  unfold handleResponse
  cases hbf : buffered
  · simpa using hcase none (Or.inl rfl)
  · simpa using hcase (some (parseConcatBody parse r.rawBody)) (Or.inr ⟨rfl, hdeliv hbf⟩)

/-- Error branch of handleResponse with a buffered callback whose body
value is falsy: the consumed response is piped again and nothing definite
is delivered. -/
theorem handleResponse_error_repipe (parse : String → Option JVal) (ok : List Nat)
    (retryEnabled : Bool) (r : Response)
    (hok : r.statusCode ∉ ok)
    (h429 : r.statusCode = 429 → retrySchedule retryEnabled r = none)
    (hfalsy : (parseConcatBody parse r.rawBody).truthy = false) :
    handleResponse parse ok retryEnabled true r = Outcome.repipeConsumed := by
  unfold handleResponse handleResponseWithBody
  by_cases h : r.statusCode = 429
  · have hok2 : (429 : Nat) ∉ ok := h ▸ hok
    simp [hok, hok2, h, h429 h, errorOutcome_repipe parse r hfalsy]
  · simp [hok, h, errorOutcome_repipe parse r hfalsy]

/-- A script with a single transport result: the one request is issued and
the classifier decides the callback invocations. -/
theorem runOperation_single (parse : String → Option JVal) (op : Operation)
    (rd : RequestDescriptor) (i : HandlerInput) :
    runOperation parse op rd [i]
      = match responseHandler parse op.ok op.retryEnabled op.buffered i with
        | Outcome.retryScheduled _ => ([rd], [])
        | Outcome.success r b => ([rd], [CallbackCall.success r b])
        | Outcome.failure e => ([rd], [CallbackCall.failure e])
        | Outcome.repipeConsumed => ([rd], []) := by
  unfold runOperation
  cases responseHandler parse op.ok op.retryEnabled op.buffered i <;> simp [runOperation]

/-! ## Claims -/

/-- Claim C2: for every operation, a response whose status code is in the
configured ok list and which does not trigger a retry invokes the callback
exactly once with a null error; a buffered callback receives the
concat-read body - the response body parsed as JSON by the parse function
when it succeeds, the raw bytes when it fails, the empty-array object for
an empty body - while a non-buffered callback receives the live response
with no body read; an unparsable success body never produces an error
outcome. -/
theorem c2_success_delivers_parsed_or_raw_body (parse : String → Option JVal)
    (op : Operation) (rd : RequestDescriptor) (r : Response)
    (hok : r.statusCode ∈ op.ok) (hnr : retrySchedule op.retryEnabled r = none) :
    runOperation parse op rd [HandlerInput.gotResponse r]
      = ([rd], [CallbackCall.success r
          (if op.buffered then some (parseConcatBody parse r.rawBody) else none)]) := by
  rw [runOperation_single]
  simp [responseHandler,
    handleResponse_ok parse op.ok op.retryEnabled op.buffered r hok hnr]

/-- Claim C2 witness: documents.list answered 200 with a JSON array body
delivers the parsed array; answered 200 with an unparsable body it
delivers the raw text, still as a success. -/
theorem c2_success_delivers_parsed_or_raw_body_witness :
    (runOperation demoParse (listOperation false) demoRequest
        [HandlerInput.gotResponse successResponse]
      = ([demoRequest],
         [CallbackCall.success successResponse (some (Body.json (JVal.arrv [])))])) ∧
    (runOperation demoParse (listOperation false) demoRequest
        [HandlerInput.gotResponse unparsableResponse]
      = ([demoRequest],
         [CallbackCall.success unparsableResponse (some (Body.raw "not json"))])) :=
  ⟨(c2_success_delivers_parsed_or_raw_body demoParse (listOperation false) demoRequest
      successResponse (by decide) (by decide)).trans rfl,
   (c2_success_delivers_parsed_or_raw_body demoParse (listOperation false) demoRequest
      unparsableResponse (by decide) (by decide)).trans rfl⟩

/-- Claim C10: with retries enabled and a truthy retry-after header value,
a response whose status is in the ok list schedules a retry instead of
invoking the callback, whatever that status is - plain successes such as
200, 201 or 204 included. -/
theorem c10_retry_overrides_success (parse : String → Option JVal) (ok : List Nat)
    (buffered : Bool) (r : Response) (s : String)
    (hok : r.statusCode ∈ ok) (hra : r.retryAfter = some s) (hs : s ≠ "") :
    handleResponse parse ok true buffered r
      = Outcome.retryScheduled ((jsParseInt s).map (fun n => n * 1000)) ∧
    (handleResponse parse ok true buffered r).isSuccess = false ∧
    (handleResponse parse ok true buffered r).isFailure = false := by
  have h := handleResponse_ok_retry parse ok true buffered r
      ((jsParseInt s).map (fun n => n * 1000)) hok (retrySchedule_enabled r s hra hs)
  refine ⟨h, ?_, ?_⟩ <;> rw [h] <;> rfl

/-- Claim C10 witness: a 200 for documents.list, a 201 for
sessions.create and a 204 for documents.delete, each with retry-after 3
and retries enabled, all schedule a 3000 millisecond retry and invoke
nothing. -/
theorem c10_retry_overrides_success_witness :
    (handleResponse demoParse (listOperation true).ok true true successRetryAfter200
       = Outcome.retryScheduled (some 3000)) ∧
    (handleResponse demoParse (sessionCreateOperation true).ok true true createdRetryAfter201
       = Outcome.retryScheduled (some 3000)) ∧
    (handleResponse demoParse (deleteOperation true).ok true false deletedRetryAfter204
       = Outcome.retryScheduled (some 3000)) :=
  ⟨((c10_retry_overrides_success demoParse (listOperation true).ok true
      successRetryAfter200 "3" (by decide) rfl (by decide)).1).trans rfl,
   ((c10_retry_overrides_success demoParse (sessionCreateOperation true).ok true
      createdRetryAfter201 "3" (by decide) rfl (by decide)).1).trans rfl,
   ((c10_retry_overrides_success demoParse (deleteOperation true).ok false
      deletedRetryAfter204 "3" (by decide) rfl (by decide)).1).trans rfl⟩

/-- Claim C8: a 429 response is treated like an accepted pending response:
with a retry scheduled (retries enabled plus a truthy retry-after header)
the callback stays silent and only the timer is set; with no retry
scheduled and a deliverable body value (the callback is non-buffered, or
the concat value is truthy - the empty body included, arriving as the
empty-array object) the callback receives a structured error carrying
status 429 and the response reference. -/
theorem c8_429_treated_as_pending (parse : String → Option JVal) (ok : List Nat)
    (retryEnabled buffered : Bool) (r : Response) (d : Option Int)
    (h429 : r.statusCode = 429) (hok : r.statusCode ∉ ok) :
    (retrySchedule retryEnabled r = some d →
        handleResponse parse ok retryEnabled buffered r = Outcome.retryScheduled d) ∧
    (retrySchedule retryEnabled r = none →
        (buffered = true → (parseConcatBody parse r.rawBody).truthy = true) →
        handleResponse parse ok retryEnabled buffered r
          = Outcome.failure
              { error := freshReadErrorPayload parse r
                status := 429
                response := some r }) := by
  constructor
  · intro hd
    unfold handleResponse handleResponseWithBody
    have hok2 : (429 : Nat) ∉ ok := h429 ▸ hok
    cases buffered <;> simp [hok, hok2, h429, hd]
  · intro hn hdeliv
    rw [handleResponse_error parse ok retryEnabled buffered r hok (fun _ => hn) hdeliv, h429]

/-- Claim C8 witness: a 429 with retry-after 3 and an empty body for
documents.list retries after 3000 milliseconds when retries are enabled,
and is delivered as an error of status 429 carrying the empty-array body
object when retries are disabled. -/
theorem c8_429_treated_as_pending_witness :
    (handleResponse demoParse (listOperation true).ok true true throttledResponse
       = Outcome.retryScheduled (some 3000)) ∧
    (handleResponse demoParse (listOperation false).ok false true throttledResponse
       = Outcome.failure
           { error := ErrPayload.body Body.emptyArr
             status := 429
             response := some throttledResponse }) :=
  ⟨((c8_429_treated_as_pending demoParse (listOperation true).ok true true
      throttledResponse (some 3000) rfl (by decide)).1 rfl),
   ((c8_429_treated_as_pending demoParse (listOperation false).ok false true
      throttledResponse none rfl (by decide)).2 rfl (fun _ => rfl)).trans rfl⟩

/-- Claim C7: for getContent and getThumbnail (non-buffered callbacks with
ok statuses 200 and 202), a 200 response that triggers no retry is handed
to the callback as the live response: the success outcome carries no
buffered body and the response body is never read or JSON-parsed. -/
theorem c7_content_success_is_live_stream (parse : String → Option JVal)
    (retryEnabled : Bool) (rd : RequestDescriptor) (r : Response)
    (h200 : r.statusCode = 200) (hnr : retrySchedule retryEnabled r = none) :
    runOperation parse (getContentOperation retryEnabled) rd
        [HandlerInput.gotResponse r]
      = ([rd], [CallbackCall.success r none]) := by
  have h : handleResponse parse [200, 202] retryEnabled false r = Outcome.success r none := by
    simpa using handleResponse_ok parse [200, 202] retryEnabled false r
      (by rw [h200]; simp) hnr
  rw [runOperation_single]
  simp [responseHandler, getContentOperation, h]

/-- Claim C7 witness: a 200 with a binary body for getThumbnail reaches
the callback as the live response with no body value attached. -/
theorem c7_content_success_is_live_stream_witness :
    runOperation demoParse (getContentOperation false) demoRequest
        [HandlerInput.gotResponse binaryResponse]
      = ([demoRequest], [CallbackCall.success binaryResponse none]) :=
  c7_content_success_is_live_stream demoParse false demoRequest binaryResponse rfl
    (by decide)

/-- Claim C1 counterexample: documents.uploadFile with retries disabled,
answered by 202 with a retry-after header, invokes the completion callback
with a success value - the claim that the callback is never invoked fails
at this input. -/
theorem c1_counterexample :
    runOperation demoParse (uploadOperation false) demoRequest
        [HandlerInput.gotResponse pendingResponse]
      = ([demoRequest],
         [CallbackCall.success pendingResponse (some Body.emptyArr)]) ∧
    (runOperation demoParse (uploadOperation false) demoRequest
        [HandlerInput.gotResponse pendingResponse]).snd.length ≠ 0 :=
  ⟨rfl, by decide⟩

/-- Claim C1 amended: with retries disabled, a 202 response carrying a
retry-after header schedules nothing further and issues no further
requests; the callback is invoked exactly once with a success value when
202 is in the ok list of the operation; when 202 is outside the ok list
the response is delivered exactly once as a structured error of status
202 whenever the body value is deliverable - always for non-buffered
callbacks, and for buffered callbacks whenever the concat value is
truthy, the empty body included (it arrives as the empty-array object,
not as the status text). -/
theorem c1_amended_pending_without_retry_invokes_callback
    (parse : String → Option JVal) (op : Operation) (rd : RequestDescriptor)
    (r : Response) (hst : r.statusCode = 202) (_hra : r.retryAfter.isSome = true)
    (hretry : op.retryEnabled = false) :
    (runOperation parse op rd [HandlerInput.gotResponse r]).fst = [rd] ∧
    ((202 : Nat) ∈ op.ok →
      (runOperation parse op rd [HandlerInput.gotResponse r]).snd
        = [CallbackCall.success r
            (if op.buffered then some (parseConcatBody parse r.rawBody) else none)]) ∧
    ((202 : Nat) ∉ op.ok →
      (op.buffered = true → (parseConcatBody parse r.rawBody).truthy = true) →
      (runOperation parse op rd [HandlerInput.gotResponse r]).snd
        = [CallbackCall.failure
            { error := freshReadErrorPayload parse r
              status := 202
              response := some r }]) := by
  have hnr : retrySchedule op.retryEnabled r = none := by
    rw [hretry]
    exact retrySchedule_disabled r
  refine ⟨?_, ?_, ?_⟩
  · rw [runOperation_single]
    cases responseHandler parse op.ok op.retryEnabled op.buffered
        (HandlerInput.gotResponse r) <;> rfl
  · intro hmem
    rw [runOperation_single]
    simp [responseHandler,
      handleResponse_ok parse op.ok op.retryEnabled op.buffered r (by rw [hst]; exact hmem) hnr]
  · intro hmem hdeliv
    have hne : r.statusCode ∉ op.ok := by rw [hst]; exact hmem
    have h429 : r.statusCode = 429 → retrySchedule op.retryEnabled r = none := fun _ => hnr
    rw [runOperation_single]
    simp [responseHandler,
      handleResponse_error parse op.ok op.retryEnabled op.buffered r hne h429 hdeliv, hst]

/-- Claim C1 amended witness: with retries disabled, a 202 with
retry-after and an empty body reaches the uploadFile callback as a
success carrying the empty-array body, and the documents.list callback as
an error whose value is the empty-array object with status 202. -/
theorem c1_amended_witness :
    ((runOperation demoParse (uploadOperation false) demoRequest
        [HandlerInput.gotResponse pendingResponse]).snd
      = [CallbackCall.success pendingResponse (some Body.emptyArr)]) ∧
    ((runOperation demoParse (listOperation false) demoRequest
        [HandlerInput.gotResponse pendingResponse]).snd
      = [CallbackCall.failure
          { error := ErrPayload.body Body.emptyArr
            status := 202
            response := some pendingResponse }]) :=
  ⟨((c1_amended_pending_without_retry_invokes_callback demoParse (uploadOperation false)
      demoRequest pendingResponse rfl rfl rfl).2.1 (by decide)).trans rfl,
   ((c1_amended_pending_without_retry_invokes_callback demoParse (listOperation false)
      demoRequest pendingResponse rfl rfl rfl).2.2 (by decide) (fun _ => rfl)).trans rfl⟩

/-- Claim C3 counterexample: documents.list (default ok list of a single
200) with retries enabled, answered 202 with retry-after 0 and then 200
with data: only one physical request is issued - the 202 goes down the
error branch, whose empty body comes back from concat-stream as the
truthy empty-array object, so the callback receives that value as an
error of status 202 for the first response instead of the second response
data after a retry. -/
theorem c3_counterexample :
    runOperation demoParse (listOperation true) demoRequest
        [HandlerInput.gotResponse pendingZeroResponse,
         HandlerInput.gotResponse successResponse]
      = ([demoRequest],
         [CallbackCall.failure
            { error := ErrPayload.body Body.emptyArr
              status := 202
              response := some pendingZeroResponse }]) ∧
    (runOperation demoParse (listOperation true) demoRequest
        [HandlerInput.gotResponse pendingZeroResponse,
         HandlerInput.gotResponse successResponse]).fst.length ≠ 2 :=
  ⟨rfl, by decide⟩

/-- Claim C3 amended: for every operation whose ok list contains 202
(uploadFile, uploadURL, getContent, getThumbnail, sessions.create), with
retries enabled, a first 202 response with retry-after 0 followed by a
success response issues exactly two physical requests - the second one
re-submitting the identical original descriptor for the identical
operation - and the callback fires exactly once, with the second response
data; the scheduled delay for the first response is 0 milliseconds. -/
theorem c3_amended_retry_roundtrip (parse : String → Option JVal)
    (op : Operation) (rd : RequestDescriptor) (r1 r2 : Response)
    (h202 : (202 : Nat) ∈ op.ok) (hen : op.retryEnabled = true)
    (h1 : r1.statusCode = 202) (hra1 : r1.retryAfter = some "0")
    (h2 : r2.statusCode ∈ op.ok) (hra2 : r2.retryAfter = none) :
    runOperation parse op rd
        [HandlerInput.gotResponse r1, HandlerInput.gotResponse r2]
      = ([rd, rd],
         [CallbackCall.success r2
           (if op.buffered then some (parseConcatBody parse r2.rawBody) else none)]) ∧
    retrySchedule op.retryEnabled r1 = some (some 0) := by
  have hs1 : retrySchedule op.retryEnabled r1 = some (some 0) := by
    rw [hen, retrySchedule_enabled r1 "0" hra1 (by decide)]
    rfl
  refine ⟨?_, hs1⟩
  have hr1 : responseHandler parse op.ok op.retryEnabled op.buffered
      (HandlerInput.gotResponse r1) = Outcome.retryScheduled (some 0) := by
    simp [responseHandler,
      handleResponse_ok_retry parse op.ok op.retryEnabled op.buffered r1 (some 0)
        (by rw [h1]; exact h202) hs1]
  have hr2 : responseHandler parse op.ok op.retryEnabled op.buffered
      (HandlerInput.gotResponse r2)
      = Outcome.success r2 (if op.buffered then some (parseConcatBody parse r2.rawBody) else none) := by
    simp [responseHandler,
      handleResponse_ok parse op.ok op.retryEnabled op.buffered r2 h2
        (retrySchedule_noHeader op.retryEnabled r2 hra2)]
  simp [runOperation, hr1, hr2]

/-- Claim C3 amended witness: uploadFile with retries enabled, answered
202 with retry-after 0 and then 200 with a JSON array body, issues two
identical requests and the callback fires once with the parsed second
body. -/
theorem c3_amended_witness :
    runOperation demoParse (uploadOperation true) demoRequest
        [HandlerInput.gotResponse pendingZeroResponse,
         HandlerInput.gotResponse successResponse]
      = ([demoRequest, demoRequest],
         [CallbackCall.success successResponse (some (Body.json (JVal.arrv [])))]) :=
  ((c3_amended_retry_roundtrip demoParse (uploadOperation true) demoRequest
      pendingZeroResponse successResponse (by decide) rfl rfl rfl (by decide) rfl).1).trans rfl

/-- Claim C4 counterexample: a retry-after header that is present with an
empty string value also suppresses the retry - with retries enabled and a
202 in the ok list the outcome is a success callback, not a scheduled
retry - although the claim allows only a missing header to suppress it. -/
theorem c4_counterexample :
    emptyHeaderResponse.retryAfter ≠ none ∧
    retrySchedule true emptyHeaderResponse = none ∧
    (handleResponse demoParse (uploadOperation true).ok true true
        emptyHeaderResponse).isRetryScheduled = false :=
  ⟨by decide, rfl, rfl⟩

/-- Claim C4 amended: the scheduled delay is the base ten integer parse of
the retry-after value times 1000 milliseconds; the value 0 is present and
valid and schedules an immediate retry; a missing header suppresses the
retry; and with retries enabled a retry is suppressed exactly by a missing
header or one whose value is the empty string. -/
theorem c4_amended_retry_after_parsing (retryEnabled : Bool) (r : Response)
    (s : String) (n : Int) :
    (r.retryAfter = some s → s ≠ "" → jsParseInt s = some n →
        retrySchedule true r = some (some (n * 1000))) ∧
    (r.retryAfter = some "0" → retrySchedule true r = some (some 0)) ∧
    (r.retryAfter = none → retrySchedule retryEnabled r = none) ∧
    (retrySchedule true r = none → r.retryAfter = none ∨ r.retryAfter = some "") := by
  refine ⟨?_, ?_, ?_, ?_⟩
  · intro hra hs hn
    rw [retrySchedule_enabled r s hra hs, hn]
    rfl
  · intro hra
    rw [retrySchedule_enabled r "0" hra (by decide)]
    rfl
  · exact retrySchedule_noHeader retryEnabled r
  · intro hnone
    unfold retrySchedule at hnone
    match hra : r.retryAfter with
    | none => exact Or.inl rfl
    | some t =>
      rw [hra] at hnone
      by_cases ht : t = ""
      · exact Or.inr (by rw [ht])
      · simp [ht] at hnone

/-- Claim C4 amended witness: retry-after 5 schedules 5000 milliseconds,
retry-after 0 schedules 0 milliseconds, a missing header schedules
nothing, and the header of the suppressed empty-value response is indeed
the empty string. -/
theorem c4_amended_witness :
    retrySchedule true pendingResponse = some (some 5000) ∧
    retrySchedule true pendingZeroResponse = some (some 0) ∧
    retrySchedule false successResponse = none ∧
    (emptyHeaderResponse.retryAfter = none ∨ emptyHeaderResponse.retryAfter = some "") :=
  ⟨((c4_amended_retry_after_parsing true pendingResponse "5" 5).1 rfl (by decide) (by decide)),
   ((c4_amended_retry_after_parsing true pendingZeroResponse "0" 0).2.1 rfl),
   ((c4_amended_retry_after_parsing false successResponse "" 0).2.2.1 rfl),
   ((c4_amended_retry_after_parsing true emptyHeaderResponse "" 0).2.2.2 rfl)⟩

/-- Claim C5 counterexample: a 404 whose body is the JSON text null is
delivered with the status text fallback as the error value, although the
body is nonempty and parses - the error does not carry the parsed-or-raw
body the claim promises. -/
theorem c5_counterexample :
    notFoundNullResponse.rawBody ≠ "" ∧
    demoParse notFoundNullResponse.rawBody = some JVal.nullv ∧
    handleResponse demoParse (getContentOperation false).ok false false notFoundNullResponse
      = Outcome.failure
          { error := ErrPayload.statusFallback ("Not Found")
            status := 404
            response := some notFoundNullResponse } ∧
    (ErrPayload.statusFallback ("Not Found")).isBodyPayload = false :=
  ⟨by decide, rfl, rfl, rfl⟩

/-- Claim C5 amended: a response outside both the ok list and the retry
cases is classified as a structured error carrying the real status code
and the response reference, never retried, and delivered to the callback
exactly once whenever the body value is deliverable (the callback is
non-buffered, or the concat value is truthy): the error value is the
parsed-or-raw concat result when that value is truthy - an empty body
arrives as the empty-array object, not as the status text - and the HTTP
status text exactly when a freshly read nonempty body parses to a falsy
JSON value; a buffered callback whose body value is falsy instead makes
the handler re-pipe the already-consumed stream, with no committed
delivery; a transport failure is wrapped with status 0 and no response
reference. -/
theorem c5_amended_error_classification (parse : String → Option JVal)
    (op : Operation) (rd : RequestDescriptor) (r : Response) (e : String)
    (hok : r.statusCode ∉ op.ok)
    (hnr : r.statusCode = 429 → retrySchedule op.retryEnabled r = none) :
    ((op.buffered = true → (parseConcatBody parse r.rawBody).truthy = true) →
      runOperation parse op rd [HandlerInput.gotResponse r]
        = ([rd],
           [CallbackCall.failure
              { error := freshReadErrorPayload parse r
                status := r.statusCode
                response := some r }])) ∧
    (op.buffered = true → (parseConcatBody parse r.rawBody).truthy = false →
      responseHandler parse op.ok op.retryEnabled op.buffered
          (HandlerInput.gotResponse r) = Outcome.repipeConsumed) ∧
    (r.rawBody = "" → freshReadErrorPayload parse r = ErrPayload.body Body.emptyArr) ∧
    ((parseConcatBody parse r.rawBody).truthy = false →
      freshReadErrorPayload parse r = ErrPayload.statusFallback (statusText r.statusCode)) ∧
    responseHandler parse op.ok op.retryEnabled op.buffered
        (HandlerInput.transportError e)
      = Outcome.failure
          { error := ErrPayload.transport e, status := 0, response := none } := by
  refine ⟨?_, ?_, ?_, ?_, ?_⟩
  · intro hdeliv
    rw [runOperation_single]
    simp [responseHandler,
      handleResponse_error parse op.ok op.retryEnabled op.buffered r hok hnr hdeliv]
  · intro hbuf hfalsy
    simp [responseHandler, hbuf,
      handleResponse_error_repipe parse op.ok op.retryEnabled r hok hnr hfalsy]
  · intro h1
    simp [freshReadErrorPayload, parseConcatBody, h1, Body.truthy]
  · intro hfalsy
    simp [freshReadErrorPayload, hfalsy]
  · simp [responseHandler, createErrorObject]

/-- Claim C5 amended witness: a 404 with an empty body for documents.list
is delivered once as an error whose value is the empty-array object with
status 404 and the response attached; a freshly read 404 whose body is
the JSON text null yields the status text; a buffered callback with that
null body re-pipes the consumed stream; and a transport error is
delivered with status 0 and no response. -/
theorem c5_amended_witness :
    (runOperation demoParse (listOperation false) demoRequest
        [HandlerInput.gotResponse notFoundEmptyResponse]
      = ([demoRequest],
         [CallbackCall.failure
            { error := ErrPayload.body Body.emptyArr
              status := 404
              response := some notFoundEmptyResponse }])) ∧
    (freshReadErrorPayload demoParse notFoundEmptyResponse = ErrPayload.body Body.emptyArr) ∧
    (freshReadErrorPayload demoParse notFoundNullResponse
      = ErrPayload.statusFallback ("Not Found")) ∧
    (responseHandler demoParse (listOperation false).ok false true
        (HandlerInput.gotResponse notFoundNullResponse) = Outcome.repipeConsumed) ∧
    (responseHandler demoParse (listOperation false).ok false true
        (HandlerInput.transportError ("ECONNREFUSED"))
      = Outcome.failure
          { error := ErrPayload.transport ("ECONNREFUSED")
            status := 0
            response := none }) := by
  have h1 := c5_amended_error_classification demoParse (listOperation false) demoRequest
    notFoundEmptyResponse ("ECONNREFUSED") (by decide) (fun hc => absurd hc (by decide))
  have h2 := c5_amended_error_classification demoParse (listOperation false) demoRequest
    notFoundNullResponse ("ECONNREFUSED") (by decide) (fun hc => absurd hc (by decide))
  exact ⟨(h1.1 (fun _ => rfl)).trans rfl, (h1.2.2.1 rfl).trans rfl,
    (h2.2.2.2.1 rfl).trans rfl, h2.2.1 rfl rfl, h1.2.2.2.2⟩


/-- Filename inference consults exactly the properties that the uploadFile
duplication step copies, so a fresh PassThrough duplicate carrying them
answers as the source stream does. -/
theorem determineFilename_copy (source : JStream) :
    determineFilename (copyStreamProps source (passThroughPipedFrom source))
      = determineFilename source := by
  unfold determineFilename copyStreamProps passThroughPipedFrom
  cases hv : source.httpVersion with
  | some v => simp [hv]
  | none =>
    cases hp : source.path with
    | none => simp [hv, hp, jsTruthyStr]
    | some p =>
      by_cases hpe : p = ""
      · simp [hv, hp, hpe, jsTruthyStr]
      · simp [hv, hp, hpe, jsTruthyStr]

/-- Claim C6: uploadFile with retry requested and a readable stream source
duplicates the stream at submission time into two readable copies - one
consumed by the first attempt, one cached for the retried attempt - both
reproducing the source bytes, copies the identifying properties
(httpVersion, headers and the client request path for an http response
source; path for a file source) onto the copies, and filename inference
answers identically on the copies and on the source. -/
theorem c6_stream_duplication (file : JStream) (hr : file.readable = true) :
    uploadFilePrepare true file
      = Except.ok
          (copyStreamProps file (passThroughPipedFrom file),
           some (copyStreamProps file (passThroughPipedFrom file))) ∧
    (copyStreamProps file (passThroughPipedFrom file)).content = file.content ∧
    (copyStreamProps file (passThroughPipedFrom file)).readable = true ∧
    (file.httpVersion.isSome = true →
        (copyStreamProps file (passThroughPipedFrom file)).httpVersion = file.httpVersion ∧
        (copyStreamProps file (passThroughPipedFrom file)).headers = file.headers ∧
        (copyStreamProps file (passThroughPipedFrom file)).clientPath = file.clientPath) ∧
    (file.httpVersion = none → jsTruthyStr file.path = true →
        (copyStreamProps file (passThroughPipedFrom file)).path = file.path) ∧
    determineFilename (copyStreamProps file (passThroughPipedFrom file))
      = determineFilename file := by
  refine ⟨?_, ?_, ?_, ?_, ?_, determineFilename_copy file⟩
  · unfold uploadFilePrepare
    simp [hr]
  · unfold copyStreamProps passThroughPipedFrom
    cases hv : file.httpVersion <;> by_cases hp : jsTruthyStr file.path = true <;> simp [hv, hp]
  · unfold copyStreamProps passThroughPipedFrom
    cases hv : file.httpVersion <;> by_cases hp : jsTruthyStr file.path = true <;> simp [hv, hp]
  · intro hv
    unfold copyStreamProps passThroughPipedFrom
    simp [hv]
  · intro hv hp
    unfold copyStreamProps passThroughPipedFrom
    simp [hv, hp]

/-- Claim C6 witness: an http response upload source with a
content-disposition filename is duplicated into the explicit PassThrough
copy carrying the same bytes and properties, and both the copy and the
source infer the same filename. -/
theorem c6_stream_duplication_witness :
    demoHttpUpload.readable = true ∧
    uploadFilePrepare true demoHttpUpload = Except.ok (demoDuplicate, some demoDuplicate) ∧
    determineFilename demoDuplicate = "foo.pdf" ∧
    determineFilename demoHttpUpload = "foo.pdf" :=
  ⟨rfl,
   ((c6_stream_duplication demoHttpUpload rfl).1).trans rfl,
   by decide,
   by decide⟩

/-- Claim C9 counterexample: retry requested for an upload whose body has
no readable source at all (a Buffer): the call is not rejected - the
preparation step answers ok, keeps the original body and caches nothing,
so the claimed synchronous descriptive error does not exist. -/
theorem c9_counterexample :
    (uploadFilePrepare true bufferUpload).isOk = true ∧
    uploadFilePrepare true bufferUpload = Except.ok (bufferUpload, none) :=
  ⟨rfl, rfl⟩

/-- Claim C9 amended: when retry is requested for an upload whose body is
not readable, the call proceeds without any rejection: the body is used
exactly as given, no duplicate is cached, and the retry closure stays
armed with the original arguments. -/
theorem c9_amended_no_rejection (file : JStream) (h : file.readable = false) :
    uploadFilePrepare true file = Except.ok (file, none) := by
  unfold uploadFilePrepare
  simp [h]

/-- Claim C9 amended witness: the Buffer-like body with retry requested
passes through the preparation step unchanged and unrejected. -/
theorem c9_amended_no_rejection_witness :
    bufferUpload.readable = false ∧
    uploadFilePrepare true bufferUpload = Except.ok (bufferUpload, none) :=
  ⟨rfl, c9_amended_no_rejection bufferUpload rfl⟩

end BoxView
